import Mathlib

/-!
Shallow embedding of the lumox orchestration layer (a local-first encrypted
message store).  The embedding follows the TypeScript sources:

* `src/core/errors.ts`   — error taxonomy (`LumoxErrorCode`, `LumoxError` and
  its subclasses);
* `src/client.ts`        — the `LumoxClient` facade;
* `src/crypto/web-crypto.ts`   — `WebCryptoProvider`;
* `src/storage/sqlite-provider.ts` — `SqliteStorageProvider`.

Asynchronous TypeScript methods that can throw are modelled as functions into
`Except Err _`; methods that also mutate `this` additionally return the new
state.  External platform collaborators (the WebCrypto `SubtleCrypto` engine,
`TextEncoder`/`TextDecoder`, `btoa`/`atob`, `JSON.stringify`/`JSON.parse` and
the SQL.js engine) are modelled as abstract function parameters, since their
implementations live outside this repository; everything the repository's own
code does (validation, state checks, wrapping, concatenation, slicing,
control flow) is translated directly.
-/

namespace Lumox

/-- Error codes of `LumoxErrorCode` in `src/core/errors.ts`. -/
inductive ErrorCode where
  | UNKNOWN_ERROR
  | INVALID_PARAMETER
  | NOT_IMPLEMENTED
  | OPERATION_TIMEOUT
  | INITIALIZATION_FAILED
  | ALREADY_INITIALIZED
  | NOT_INITIALIZED
  | STORAGE_INITIALIZATION_FAILED
  | STORAGE_NOT_INITIALIZED
  | STORAGE_CONNECTION_ERROR
  | STORAGE_READ_ERROR
  | STORAGE_WRITE_ERROR
  | STORAGE_DELETE_ERROR
  | STORAGE_EXPORT_ERROR
  | STORAGE_IMPORT_ERROR
  | STORAGE_SCHEMA_ERROR
  | STORAGE_TRANSACTION_ERROR
  | MESSAGE_NOT_FOUND
  | MESSAGE_ALREADY_EXISTS
  | MESSAGE_VALIDATION_ERROR
  | MESSAGE_LIMIT_EXCEEDED
  | CRYPTO_INITIALIZATION_FAILED
  | CRYPTO_KEY_GENERATION_FAILED
  | CRYPTO_ENCRYPTION_FAILED
  | CRYPTO_DECRYPTION_FAILED
  | CRYPTO_KEY_EXPORT_FAILED
  | CRYPTO_KEY_IMPORT_FAILED
  | CRYPTO_NOT_AVAILABLE
  | CRYPTO_KEY_NOT_SET
  | INVALID_CONFIGURATION
  | MISSING_REQUIRED_CONFIGURATION
  | IPFS_CONNECTION_ERROR
  | IPFS_UPLOAD_ERROR
  | IPFS_DOWNLOAD_ERROR
  | IPFS_NOT_AVAILABLE
  deriving DecidableEq, Repr

/-- The string value of each `LumoxErrorCode` enum member. -/
def ErrorCode.codeStr : ErrorCode → String
  | .UNKNOWN_ERROR => "LUMOX-1000"
  | .INVALID_PARAMETER => "LUMOX-1001"
  | .NOT_IMPLEMENTED => "LUMOX-1002"
  | .OPERATION_TIMEOUT => "LUMOX-1003"
  | .INITIALIZATION_FAILED => "LUMOX-2000"
  | .ALREADY_INITIALIZED => "LUMOX-2001"
  | .NOT_INITIALIZED => "LUMOX-2002"
  | .STORAGE_INITIALIZATION_FAILED => "LUMOX-3000"
  | .STORAGE_NOT_INITIALIZED => "LUMOX-3001"
  | .STORAGE_CONNECTION_ERROR => "LUMOX-3002"
  | .STORAGE_READ_ERROR => "LUMOX-3003"
  | .STORAGE_WRITE_ERROR => "LUMOX-3004"
  | .STORAGE_DELETE_ERROR => "LUMOX-3005"
  | .STORAGE_EXPORT_ERROR => "LUMOX-3006"
  | .STORAGE_IMPORT_ERROR => "LUMOX-3007"
  | .STORAGE_SCHEMA_ERROR => "LUMOX-3008"
  | .STORAGE_TRANSACTION_ERROR => "LUMOX-3009"
  | .MESSAGE_NOT_FOUND => "LUMOX-4000"
  | .MESSAGE_ALREADY_EXISTS => "LUMOX-4001"
  | .MESSAGE_VALIDATION_ERROR => "LUMOX-4002"
  | .MESSAGE_LIMIT_EXCEEDED => "LUMOX-4003"
  | .CRYPTO_INITIALIZATION_FAILED => "LUMOX-5000"
  | .CRYPTO_KEY_GENERATION_FAILED => "LUMOX-5001"
  | .CRYPTO_ENCRYPTION_FAILED => "LUMOX-5002"
  | .CRYPTO_DECRYPTION_FAILED => "LUMOX-5003"
  | .CRYPTO_KEY_EXPORT_FAILED => "LUMOX-5004"
  | .CRYPTO_KEY_IMPORT_FAILED => "LUMOX-5005"
  | .CRYPTO_NOT_AVAILABLE => "LUMOX-5006"
  | .CRYPTO_KEY_NOT_SET => "LUMOX-5007"
  | .INVALID_CONFIGURATION => "LUMOX-6000"
  | .MISSING_REQUIRED_CONFIGURATION => "LUMOX-6001"
  | .IPFS_CONNECTION_ERROR => "LUMOX-7000"
  | .IPFS_UPLOAD_ERROR => "LUMOX-7001"
  | .IPFS_DOWNLOAD_ERROR => "LUMOX-7002"
  | .IPFS_NOT_AVAILABLE => "LUMOX-7003"

/-- An error value.  `lumox name code message cause` models a `LumoxError`
(or one of its subclasses — `name` holds the runtime `name` field, e.g.
`"StorageError"`); `foreign message` models a plain JavaScript `Error` thrown
by a collaborator.  The `context` diagnostic map is not modelled (no claim
inspects it). -/
inductive Err where
  | lumox (name : String) (code : ErrorCode) (message : String) (cause : Option Err) : Err
  | foreign (message : String) : Err

/-- The `code` field; `none` for a foreign (non-taxonomy) error. -/
def Err.code? : Err → Option ErrorCode
  | .lumox _ c _ _ => some c
  | .foreign _ => none

/-- The runtime `name` field of the error object. -/
def Err.name : Err → String
  | .lumox n _ _ _ => n
  | .foreign _ => "Error"

/-- The `message` field of the error object. -/
def Err.message : Err → String
  | .lumox _ _ m _ => m
  | .foreign m => m

/-- The wrapped `cause`, when present. -/
def Err.cause? : Err → Option Err
  | .lumox _ _ _ c => c
  | .foreign _ => none

/-- Models `error instanceof LumoxError` (all taxonomy errors are instances). -/
def Err.isLumox : Err → Bool
  | .lumox _ _ _ _ => true
  | .foreign _ => false

/-- Models `error instanceof CryptoError`. -/
def Err.isCryptoErr : Err → Bool
  | .lumox n _ _ _ => n == "CryptoError"
  | .foreign _ => false

/-- Models `new LumoxError(code, message, { cause })`. -/
def lumoxError (code : ErrorCode) (message : String) (cause : Option Err) : Err :=
  .lumox "LumoxError" code message cause

/-- Models `new StorageError(code, message, { cause })` — prefixes the message. -/
def storageError (code : ErrorCode) (message : String) (cause : Option Err) : Err :=
  .lumox "StorageError" code ("Storage error: " ++ message) cause

/-- Models `new CryptoError(code, message, { cause })` — prefixes the message. -/
def cryptoError (code : ErrorCode) (message : String) (cause : Option Err) : Err :=
  .lumox "CryptoError" code ("Crypto error: " ++ message) cause

/-- Models `new NotInitializedError(component)` — code `NOT_INITIALIZED`. -/
def notInitializedError (component : String) : Err :=
  .lumox "NotInitializedError" ErrorCode.NOT_INITIALIZED
    ("The " ++ component ++ " is not initialized. Call initialize() first.") none

/-- A metadata value (`Record<string, unknown>` entries; the variants the
client layer actually stores). -/
inductive MValue where
  | bool (b : Bool)
  | str (s : String)
  | num (n : Int)
  deriving DecidableEq, Repr

/-- A JavaScript object used as free-form metadata: keys in insertion order. -/
abbrev Meta := List (String × MValue)

/-- Property lookup on a metadata object (first matching key). -/
def metaGet (m : Meta) (k : String) : Option MValue :=
  (m.find? (fun p => p.1 == k)).map (·.2)

/-- Spread `{ ...m, k: v }` for a single added property: overrides an existing key in
place, otherwise appends the new property. -/
def metaSet : Meta → String → MValue → Meta
  | [], k, v => [(k, v)]
  | p :: rest, k, v =>
    if p.1 == k then (k, v) :: metaSet rest k v else p :: metaSet rest k v

/-- The persisted view (`EncryptedMessage` in `src/core/types.ts`). -/
structure EncryptedMessage where
  id : String
  senderId : String
  receiverId : String
  encryptedContent : String
  timestamp : Int
  metadata : Option Meta
  deriving DecidableEq, Repr

/-- The decrypted view (`Message` in `src/core/types.ts`). -/
structure Message where
  id : String
  senderId : String
  receiverId : String
  content : String
  timestamp : Int
  metadata : Option Meta
  deriving DecidableEq, Repr

/-- An AES key handle (`CryptoKey`); `raw` is the underlying key material. -/
structure CryptoKey where
  raw : List Nat
  deriving DecidableEq, Repr

/-! ## LumoxClient (`src/client.ts`)

The mutable fields of a `LumoxClient` relevant to its contracts: the active
encryption key and the initialized flag (`storage`, `crypto` and `logger`
are fixed at construction; the collaborator calls are passed in as abstract
outcomes/functions). -/

/-- Mutable state of a `LumoxClient`. -/
structure ClientState where
  encryptionKey : Option CryptoKey
  initialized : Bool
  deriving DecidableEq, Repr

/-- Models `LumoxClient.initialize`: awaits `storage.initialize()` then
`crypto.initialize()` (whose outcomes are the two `Except` arguments; the
second call is never reached when the first fails), sets `initialized := true`
on success, and on any failure wraps the cause in an
`INITIALIZATION_FAILED` error without touching the state. -/
def clientInit (st : ClientState) (storageInit cryptoInit : Except Err Unit) :
    ClientState × Except Err Unit :=
  match storageInit with
  | .error e =>
    (st, .error (lumoxError .INITIALIZATION_FAILED "Failed to initialize Lumox client" (some e)))
  | .ok _ =>
    match cryptoInit with
    | .error e =>
      (st, .error (lumoxError .INITIALIZATION_FAILED "Failed to initialize Lumox client" (some e)))
    | .ok _ => ({ st with initialized := true }, .ok ())

/-- Models `LumoxClient.ensureInitialized`. -/
def clientEnsureInitialized (st : ClientState) : Except Err Unit :=
  if !st.initialized then .error (notInitializedError "LumoxClient") else .ok ()

/-- Models `LumoxClient.setEncryptionKey`. -/
def clientSetEncryptionKey (st : ClientState) (key : CryptoKey) :
    ClientState × Except Err Unit :=
  match clientEnsureInitialized st with
  | .error e => (st, .error e)
  | .ok _ => ({ st with encryptionKey := some key }, .ok ())

/-- The `CRYPTO_KEY_NOT_SET` error thrown by key-requiring client methods. -/
def keyNotSetError : Err :=
  cryptoError .CRYPTO_KEY_NOT_SET
    "Encryption key not set. Call setEncryptionKey or generateEncryptionKey first." none

/-- The catch-block of `LumoxClient.sendMessage`: an already-tagged
`LumoxError` is rethrown unchanged; a foreign error is classified
(`CryptoError` → `CRYPTO_ENCRYPTION_FAILED`, otherwise
`STORAGE_WRITE_ERROR`) and wrapped. -/
def rewrapSendError (e : Err) : Err :=
  if e.isLumox then e
  else
    let errorCode :=
      if e.isCryptoErr then ErrorCode.CRYPTO_ENCRYPTION_FAILED
      else ErrorCode.STORAGE_WRITE_ERROR
    lumoxError errorCode ("Failed to send message: " ++ e.message) (some e)

/-- Models `LumoxClient.sendMessage`.  `encrypt` and `save` are the collaborator
calls `crypto.encrypt` and `storage.saveMessage`; `timestamp` is the
`Date.now()` sample and `randSuffix` the random id suffix. -/
def clientSendMessage (encrypt : String → CryptoKey → Except Err String)
    (save : EncryptedMessage → Except Err String)
    (st : ClientState) (senderId receiverId content : String)
    (metadata : Option Meta) (timestamp : Int) (randSuffix : String) :
    Except Err String :=
  match clientEnsureInitialized st with
  | .error e => .error e
  | .ok _ =>
    match st.encryptionKey with
    | none => .error keyNotSetError
    | some key =>
      let id := senderId ++ "-" ++ receiverId ++ "-" ++ toString timestamp ++ "-" ++ randSuffix
      match encrypt content key with
      | .error e => .error (rewrapSendError e)
      | .ok encryptedContent =>
        match save { id := id, senderId := senderId, receiverId := receiverId,
                     encryptedContent := encryptedContent, timestamp := timestamp,
                     metadata := metadata } with
        | .error e => .error (rewrapSendError e)
        | .ok messageId => .ok messageId

/-- The per-record decryption step of `LumoxClient.getMessages`: a successful
decrypt yields the decrypted `Message`; a failed decrypt is caught and yields
the record with the `'[Decryption Error]'` placeholder content and metadata
extended with `decryptionError: true` and the error message. -/
def decryptEnvelope (decrypt : String → CryptoKey → Except Err String)
    (key : CryptoKey) (em : EncryptedMessage) : Message :=
  match decrypt em.encryptedContent key with
  | .ok content =>
    { id := em.id, senderId := em.senderId, receiverId := em.receiverId,
      content := content, timestamp := em.timestamp, metadata := em.metadata }
  | .error e =>
    { id := em.id, senderId := em.senderId, receiverId := em.receiverId,
      content := "[Decryption Error]", timestamp := em.timestamp,
      metadata := some (metaSet (metaSet (em.metadata.getD [])
        "decryptionError" (.bool true)) "errorMessage" (.str e.message)) }

/-- Models `LumoxClient.getMessages`.  `fetch` is the outcome of
`storage.getMessagesBetweenUsers`; `decrypt` is `crypto.decrypt`.  Only a
fetch failure fails the call (pass-through for taxonomy errors, otherwise
wrapped as `STORAGE_READ_ERROR`); decryption failures are handled per record
by `decryptEnvelope`. -/
def clientGetMessages (fetch : Except Err (List EncryptedMessage))
    (decrypt : String → CryptoKey → Except Err String)
    (st : ClientState) : Except Err (List Message) :=
  match clientEnsureInitialized st with
  | .error e => .error e
  | .ok _ =>
    match st.encryptionKey with
    | none => .error keyNotSetError
    | some key =>
      match fetch with
      | .error e =>
        .error (if e.isLumox then e
                else lumoxError .STORAGE_READ_ERROR
                  ("Failed to get messages: " ++ e.message) (some e))
      | .ok encryptedMessages => .ok (encryptedMessages.map (decryptEnvelope decrypt key))

/-- Models `LumoxClient.importData`.  `importFn` is `storage.import`; any failure is
wrapped as `STORAGE_IMPORT_ERROR` (this catch block has no pass-through). -/
def clientImportData (importFn : List Nat → Bool → Except Err Unit)
    (st : ClientState) (data : List Nat) (overwrite : Bool) : Except Err Unit :=
  match clientEnsureInitialized st with
  | .error e => .error e
  | .ok _ =>
    match importFn data overwrite with
    | .error e =>
      .error (lumoxError .STORAGE_IMPORT_ERROR ("Failed to import data: " ++ e.message) (some e))
    | .ok _ => .ok ()

/-- Models `LumoxClient.close`: a no-op on an uninitialized client; otherwise awaits
`storage.close()` (outcome `storageClose`) and clears the initialized flag,
leaving every other field untouched. -/
def clientClose (st : ClientState) (storageClose : Except Err Unit) :
    ClientState × Except Err Unit :=
  if !st.initialized then (st, .ok ())
  else
    match storageClose with
    | .error e =>
      (st, .error (lumoxError .UNKNOWN_ERROR ("Failed to close client: " ++ e.message) (some e)))
    | .ok _ => ({ st with initialized := false }, .ok ())

/-! ## WebCryptoProvider (`src/crypto/web-crypto.ts`)

The platform primitives the provider delegates to (`TextEncoder`,
`TextDecoder`, `btoa`, `atob` and `crypto.subtle`'s AES-GCM calls) live
outside the repository; they are bundled in `SubtlePlatform`.  `atob` throws
on malformed base64 and `subtle.encrypt`/`subtle.decrypt` reject on engine or
authentication failure, hence the `Option` results. -/

/-- External platform primitives used by `WebCryptoProvider`. -/
structure SubtlePlatform where
  textEncode : String → List Nat
  textDecode : List Nat → String
  btoa : List Nat → String
  atob : String → Option (List Nat)
  aeadEncrypt : CryptoKey → List Nat → List Nat → Option (List Nat)
  aeadDecrypt : CryptoKey → List Nat → List Nat → Option (List Nat)
  importRaw : List Nat → Option CryptoKey

/-- Models the emptiness test `s.trim() === ''`: the trimmed string is empty
exactly when every character is whitespace. -/
def trimEmpty (s : String) : Bool :=
  s.data.all Char.isWhitespace

/-- Models `WebCryptoProvider.ensureInitialized`. -/
def webCryptoEnsureInitialized (inited : Bool) : Except Err Unit :=
  if !inited then
    .error (cryptoError .CRYPTO_NOT_AVAILABLE
      "WebCryptoProvider is not initialized. Call initialize() first." none)
  else .ok ()

/-- Models `WebCryptoProvider.encrypt`: UTF-8 encodes the plaintext, AES-GCM
encrypts it under the fresh 12-byte `iv`, prepends the `iv` to the ciphertext
and base64 encodes the result; any engine failure is wrapped as
`CRYPTO_ENCRYPTION_FAILED`. -/
def webCryptoEncrypt (p : SubtlePlatform) (inited : Bool) (data : String)
    (key : CryptoKey) (iv : List Nat) : Except Err String :=
  match webCryptoEnsureInitialized inited with
  | .error e => .error e
  | .ok _ =>
    let encodedData := p.textEncode data
    match p.aeadEncrypt key iv encodedData with
    | none =>
      .error (cryptoError .CRYPTO_ENCRYPTION_FAILED "Failed to encrypt data" none)
    | some encryptedBuffer =>
      .ok (p.btoa (iv ++ encryptedBuffer))

/-- Models `WebCryptoProvider.decrypt`: validates non-emptiness, base64 decodes,
checks the payload is longer than the 12-byte IV, splits IV/ciphertext
(`slice(0, 12)` / `slice(12)`), AES-GCM decrypts and UTF-8 decodes; every
failure is wrapped as `CRYPTO_DECRYPTION_FAILED`. -/
def webCryptoDecrypt (p : SubtlePlatform) (inited : Bool)
    (encryptedData : String) (key : CryptoKey) : Except Err String :=
  match webCryptoEnsureInitialized inited with
  | .error e => .error e
  | .ok _ =>
    if trimEmpty encryptedData then
      .error (cryptoError .CRYPTO_DECRYPTION_FAILED
        "Failed to decrypt data: Encrypted data must be a non-empty string" none)
    else
      match p.atob encryptedData with
      | none =>
        .error (cryptoError .CRYPTO_DECRYPTION_FAILED
          "Failed to decrypt data: Invalid base64 format" none)
      | some encryptedArray =>
        if encryptedArray.length ≤ 12 then
          .error (cryptoError .CRYPTO_DECRYPTION_FAILED
            "Failed to decrypt data: Encrypted data is too short to contain IV and encrypted content"
            none)
        else
          let iv := encryptedArray.take 12
          let encryptedBuffer := encryptedArray.drop 12
          match p.aeadDecrypt key iv encryptedBuffer with
          | none =>
            .error (cryptoError .CRYPTO_DECRYPTION_FAILED "Failed to decrypt data" none)
          | some decryptedBuffer => .ok (p.textDecode decryptedBuffer)

/-- Models `WebCryptoProvider.importKey`: rejects empty/whitespace-only input,
malformed base64, and raw material whose length is not exactly 32 bytes;
every failure is wrapped as `CRYPTO_KEY_IMPORT_FAILED`.  On valid input the
raw key is handed to `subtle.importKey` (`p.importRaw`). -/
def webCryptoImportKey (p : SubtlePlatform) (inited : Bool) (keyData : String) :
    Except Err CryptoKey :=
  match webCryptoEnsureInitialized inited with
  | .error e => .error e
  | .ok _ =>
    if trimEmpty keyData then
      .error (cryptoError .CRYPTO_KEY_IMPORT_FAILED
        "Failed to import key: Key data must be a non-empty string" none)
    else
      match p.atob keyData with
      | none =>
        .error (cryptoError .CRYPTO_KEY_IMPORT_FAILED
          "Failed to import key: Invalid base64 format" none)
      | some rawKey =>
        if rawKey.length ≠ 32 then
          .error (cryptoError .CRYPTO_KEY_IMPORT_FAILED
            ("Failed to import key: Invalid key length: expected 32 bytes for AES-256, got "
              ++ toString rawKey.length ++ " bytes") none)
        else
          match p.importRaw rawKey with
          | none => .error (cryptoError .CRYPTO_KEY_IMPORT_FAILED "Failed to import key" none)
          | some key => .ok key

/-! ## SqliteStorageProvider (`src/storage/sqlite-provider.ts`)

The messages table is modelled as a list of rows (insertion order); the
SQL.js engine calls used by `import` (`new SQL.Database(data)` and the
schema-version query on the freshly built database) are abstract
(`SqlEngine`), as is the JSON codec used for the metadata column. -/

/-- One row of the `messages` table. -/
structure DbRow where
  id : String
  senderId : String
  receiverId : String
  encryptedContent : String
  timestamp : Int
  metadata : Option String
  deriving DecidableEq, Repr

/-- Mutable state of a `SqliteStorageProvider`: `db` is `this.db` (the open
database, `none` when closed/never opened), `sqlLoaded` records whether
`this.SQL` is non-null, `initialized` is the flag checked by
`ensureInitialized`. -/
structure SqliteState where
  db : Option (List DbRow)
  sqlLoaded : Bool
  initialized : Bool
  deriving DecidableEq, Repr

/-- Models `JSON.stringify` / `JSON.parse` for the metadata column (platform).
`parse` is `none` when `JSON.parse` would throw. -/
structure JsonCodec where
  stringify : Meta → String
  parse : String → Option Meta

/-- External SQL.js engine calls used by `import`: constructing a database
from a binary blob (`none` when the constructor throws) and reading the
`schema_version` row of a freshly constructed database (`none` when the
query or the `result[0]` indexing throws). -/
structure SqlEngine where
  blobToDb : List Nat → Option (List DbRow)
  readVersion : List DbRow → Option Int

/-- Models `SqliteStorageProvider.ensureInitialized`:
`if (!this.initialized || !this.db) throw new NotInitializedError('SqliteStorageProvider')`. -/
def sqliteEnsureInitialized (st : SqliteState) : Except Err Unit :=
  if !st.initialized || st.db.isNone then
    .error (notInitializedError "SqliteStorageProvider")
  else .ok ()

/-- Converts an `EncryptedMessage` to the bound row values of the `INSERT`
in `saveMessage`/`saveMessages` (metadata JSON-encoded, `null` when absent). -/
def toRow (j : JsonCodec) (msg : EncryptedMessage) : DbRow :=
  { id := msg.id, senderId := msg.senderId, receiverId := msg.receiverId,
    encryptedContent := msg.encryptedContent, timestamp := msg.timestamp,
    metadata := msg.metadata.map j.stringify }

/-- Reads a fetched row back into an `EncryptedMessage`: the metadata column
is `JSON.parse`d when it is a truthy (non-null, non-empty) string, else
`undefined`; `none` when `JSON.parse` throws. -/
def rowToMessage (j : JsonCodec) (row : DbRow) : Option EncryptedMessage :=
  match row.metadata with
  | none =>
    some { id := row.id, senderId := row.senderId, receiverId := row.receiverId,
           encryptedContent := row.encryptedContent, timestamp := row.timestamp,
           metadata := none }
  | some s =>
    if s = "" then
      some { id := row.id, senderId := row.senderId, receiverId := row.receiverId,
             encryptedContent := row.encryptedContent, timestamp := row.timestamp,
             metadata := none }
    else
      match j.parse s with
      | none => none
      | some m =>
        some { id := row.id, senderId := row.senderId, receiverId := row.receiverId,
               encryptedContent := row.encryptedContent, timestamp := row.timestamp,
               metadata := some m }

/-- Models `SqliteStorageProvider.saveMessage`: `INSERT` of one row; a primary-key
conflict (or any engine failure) is wrapped as `STORAGE_WRITE_ERROR`. -/
def sqliteSaveMessage (j : JsonCodec) (st : SqliteState) (msg : EncryptedMessage) :
    SqliteState × Except Err String :=
  match sqliteEnsureInitialized st with
  | .error e => (st, .error e)
  | .ok _ =>
    let rows := st.db.getD []
    if rows.any (fun r => r.id == msg.id) then
      (st, .error (storageError .STORAGE_WRITE_ERROR
        "Failed to save message: UNIQUE constraint failed: messages.id" none))
    else
      ({ st with db := some (rows ++ [toRow j msg]) }, .ok msg.id)

/-- Models `SqliteStorageProvider.getMessage`: point lookup by id; an unmatched id
yields `null` (the `!row.id` check also treats an empty id as absent); a
metadata `JSON.parse` failure is wrapped as `STORAGE_READ_ERROR`. -/
def sqliteGetMessage (j : JsonCodec) (st : SqliteState) (id : String) :
    SqliteState × Except Err (Option EncryptedMessage) :=
  match sqliteEnsureInitialized st with
  | .error e => (st, .error e)
  | .ok _ =>
    let rows := st.db.getD []
    match rows.find? (fun r => r.id == id) with
    | none => (st, .ok none)
    | some row =>
      if row.id = "" then (st, .ok none)
      else
        match rowToMessage j row with
        | none =>
          (st, .error (storageError .STORAGE_READ_ERROR "Failed to get message" none))
        | some msg => (st, .ok (some msg))

/-- Models `SqliteStorageProvider.getMessagesBetweenUsers`: single query filtering
on the unordered user pair, ordered by timestamp descending, with
`LIMIT ?/OFFSET ?` pagination; a metadata parse failure is wrapped as
`STORAGE_READ_ERROR`. -/
def sqliteGetMessagesBetweenUsers (j : JsonCodec) (st : SqliteState)
    (user1Id user2Id : String) (limit offset : Nat) :
    SqliteState × Except Err (List EncryptedMessage) :=
  match sqliteEnsureInitialized st with
  | .error e => (st, .error e)
  | .ok _ =>
    let rows := st.db.getD []
    let filtered := rows.filter (fun r =>
      (r.senderId == user1Id && r.receiverId == user2Id) ||
      (r.senderId == user2Id && r.receiverId == user1Id))
    let sorted := filtered.mergeSort (fun a b => decide (b.timestamp ≤ a.timestamp))
    let page := (sorted.drop offset).take limit
    match page.mapM (rowToMessage j) with
    | none =>
      (st, .error (storageError .STORAGE_READ_ERROR "Failed to get messages between users" none))
    | some msgs => (st, .ok msgs)

/-- Models `SqliteStorageProvider.deleteMessage`: runs
`DELETE FROM messages WHERE id = ?` and returns `true` unconditionally (the
row count is never consulted). -/
def sqliteDeleteMessage (st : SqliteState) (id : String) :
    SqliteState × Except Err Bool :=
  match sqliteEnsureInitialized st with
  | .error e => (st, .error e)
  | .ok _ =>
    let rows := st.db.getD []
    ({ st with db := some (rows.filter (fun r => !(r.id == id))) }, .ok true)

/-- The loop body of `saveMessages`: inserts each row, failing on the first
primary-key conflict. -/
def insertAll : List DbRow → List DbRow → Option (List DbRow)
  | rows, [] => some rows
  | rows, r :: rest =>
    if rows.any (fun r0 => r0.id == r.id) then none
    else insertAll (rows ++ [r]) rest

/-- Models `SqliteStorageProvider.saveMessages`: a `BEGIN TRANSACTION` / `COMMIT`
bulk insert; on any failure the transaction is rolled back (the store is
unchanged) and the error is wrapped as `STORAGE_TRANSACTION_ERROR`. -/
def sqliteSaveMessages (j : JsonCodec) (st : SqliteState)
    (msgs : List EncryptedMessage) : SqliteState × Except Err (List String) :=
  match sqliteEnsureInitialized st with
  | .error e => (st, .error e)
  | .ok _ =>
    let rows := st.db.getD []
    match insertAll rows (msgs.map (toRow j)) with
    | none =>
      (st, .error (storageError .STORAGE_TRANSACTION_ERROR "Failed to save messages" none))
    | some rows' => ({ st with db := some rows' }, .ok (msgs.map (·.id)))

/-- Models `SqliteStorageProvider.export`: serializes the open database (the binary
encoding itself is the engine's `db.export()`, abstracted by `dbToBlob`). -/
def sqliteExport (dbToBlob : List DbRow → List Nat) (st : SqliteState) :
    SqliteState × Except Err (List Nat) :=
  match sqliteEnsureInitialized st with
  | .error e => (st, .error e)
  | .ok _ => (st, .ok (dbToBlob (st.db.getD [])))

/-- Models `SqliteStorageProvider.import`.  Unlike every other operation it does not
call `ensureInitialized`; it only checks `this.SQL`.  With `overwrite=true`
it closes any open database, rebuilds one from the blob and sets
`initialized := true`; with `overwrite=false` it always throws (merge import
unimplemented).  Every failure is wrapped as `STORAGE_IMPORT_ERROR`. -/
def sqliteImport (eng : SqlEngine) (st : SqliteState) (data : List Nat)
    (overwrite : Bool) : SqliteState × Except Err Unit :=
  if !st.sqlLoaded then
    (st, .error (storageError .STORAGE_IMPORT_ERROR
      "Failed to import database: SQL.js is not initialized. Call initialize() first." none))
  else
    if overwrite then
      let st1 := { st with db := none }
      match eng.blobToDb data with
      | none =>
        (st1, .error (storageError .STORAGE_IMPORT_ERROR "Failed to import database" none))
      | some rows =>
        let st2 := { st1 with db := some rows }
        match eng.readVersion rows with
        | none =>
          (st2, .error (storageError .STORAGE_IMPORT_ERROR "Failed to import database" none))
        | some _version => ({ st2 with initialized := true }, .ok ())
    else
      (st, .error (storageError .STORAGE_IMPORT_ERROR
        "Failed to import database: Merge import not implemented yet. Use overwrite=true." none))

/-- Models `SqliteStorageProvider.close`: a warning no-op when no database is open;
otherwise closes it and clears both `db` and `initialized`. -/
def sqliteClose (st : SqliteState) : SqliteState × Except Err Unit :=
  match st.db with
  | none => (st, .ok ())
  | some _ => ({ st with db := none, initialized := false }, .ok ())

/-! ## Helper lemmas -/

/-- Setting a key makes it readable. -/
theorem metaGet_metaSet_same (m : Meta) (k : String) (v : MValue) :
    metaGet (metaSet m k v) k = some v := by
  induction m with
  | nil => simp [metaSet, metaGet]
  | cons p rest ih =>
    by_cases h : p.1 = k
    · simp [metaSet, h, metaGet]
    · simp only [metaSet, beq_iff_eq, h, if_false]
      simpa [metaGet, List.find?_cons, h] using ih

/-- Setting a different key leaves a lookup unchanged. -/
theorem metaGet_metaSet_ne (m : Meta) (k k' : String) (v : MValue) (h : k ≠ k') :
    metaGet (metaSet m k' v) k = metaGet m k := by
  induction m with
  | nil => simp [metaSet, metaGet, List.find?_cons, Ne.symm h]
  | cons p rest ih =>
    by_cases hp : p.1 = k'
    · simp [metaSet, hp, metaGet, List.find?_cons, Ne.symm h] at ih ⊢
      simpa [metaGet] using ih
    · simp only [metaSet, beq_iff_eq, hp, if_false]
      by_cases hk : p.1 = k
      · simp [metaGet, List.find?_cons, hk]
      · simpa [metaGet, List.find?_cons, hk] using ih

/-! ## C1 -/

/-- C1: on an initialized client with a key set, when the storage fetch
succeeds, `getMessages` never fails because of a record-level decryption
failure: it returns exactly one `Message` per fetched record (in fetch
order); a record whose decryption succeeds carries its decrypted content and
its original metadata, and a record whose decryption fails carries the
`'[Decryption Error]'` placeholder content and metadata flags
(`decryptionError: true` plus the error message). -/
theorem getMessages_per_record_failure_isolated
    (fetchList : List EncryptedMessage)
    (decrypt : String → CryptoKey → Except Err String)
    (st : ClientState) (key : CryptoKey)
    (hinit : st.initialized = true) (hkey : st.encryptionKey = some key) :
    ∃ msgs : List Message,
      clientGetMessages (.ok fetchList) decrypt st = .ok msgs ∧
      msgs.length = fetchList.length ∧
      ∀ i : Nat, ∀ em : EncryptedMessage, fetchList[i]? = some em →
        ∃ m : Message, msgs[i]? = some m ∧
          m.id = em.id ∧ m.senderId = em.senderId ∧ m.receiverId = em.receiverId ∧
          m.timestamp = em.timestamp ∧
          (∀ s, decrypt em.encryptedContent key = .ok s →
            m.content = s ∧ m.metadata = em.metadata) ∧
          (∀ e, decrypt em.encryptedContent key = .error e →
            m.content = "[Decryption Error]" ∧
            ∃ md, m.metadata = some md ∧
              metaGet md "decryptionError" = some (.bool true) ∧
              metaGet md "errorMessage" = some (.str e.message)) := by
  refine ⟨fetchList.map (decryptEnvelope decrypt key), ?_, by simp, ?_⟩
  · simp [clientGetMessages, clientEnsureInitialized, hinit, hkey]
  · intro i em hem
    refine ⟨decryptEnvelope decrypt key em, ?_, ?_⟩
    · simp [hem]
    · cases hd : decrypt em.encryptedContent key with
      | ok s0 =>
        refine ⟨by simp [decryptEnvelope, hd], by simp [decryptEnvelope, hd],
                by simp [decryptEnvelope, hd], by simp [decryptEnvelope, hd], ?_, ?_⟩
        · intro s hs
          cases hs
          exact ⟨by simp [decryptEnvelope, hd], by simp [decryptEnvelope, hd]⟩
        · intro e he
          cases he
      | error e0 =>
        refine ⟨by simp [decryptEnvelope, hd], by simp [decryptEnvelope, hd],
                by simp [decryptEnvelope, hd], by simp [decryptEnvelope, hd], ?_, ?_⟩
        · intro s hs
          cases hs
        · intro e he
          cases he
          refine ⟨by simp [decryptEnvelope, hd], ?_⟩
          refine ⟨metaSet (metaSet (em.metadata.getD []) "decryptionError" (.bool true))
            "errorMessage" (.str e0.message), by simp [decryptEnvelope, hd], ?_, ?_⟩
          · rw [metaGet_metaSet_ne _ _ _ _ (by decide)]
            exact metaGet_metaSet_same _ _ _
          · exact metaGet_metaSet_same _ _ _

/-- A demonstration key for the C1 witness. -/
def demoKey : CryptoKey := ⟨[1, 2, 3]⟩

/-- A demonstration client state: initialized with `demoKey` active. -/
def demoClientState : ClientState := { encryptionKey := some demoKey, initialized := true }

/-- A decrypt behaviour that fails on exactly one stored token. -/
def demoDecrypt : String → CryptoKey → Except Err String :=
  fun c _ => if c = "token-bad" then .error (.foreign "auth tag mismatch") else .ok ("plain-" ++ c)

/-- Three fetched records, the middle one undecryptable. -/
def demoFetch : List EncryptedMessage :=
  [{ id := "m1", senderId := "alice", receiverId := "bob", encryptedContent := "token-1",
     timestamp := 100, metadata := none },
   { id := "m2", senderId := "bob", receiverId := "alice", encryptedContent := "token-bad",
     timestamp := 101, metadata := some [("k", .str "v")] },
   { id := "m3", senderId := "alice", receiverId := "bob", encryptedContent := "token-3",
     timestamp := 102, metadata := none }]

/-- Witness for C1 at a concrete 3-record batch with one corrupted record. -/
theorem getMessages_per_record_failure_isolated_witness :
    ∃ msgs : List Message,
      clientGetMessages (.ok demoFetch) demoDecrypt demoClientState = .ok msgs ∧
      msgs.length = demoFetch.length := by
  obtain ⟨msgs, h1, h2, -⟩ :=
    getMessages_per_record_failure_isolated demoFetch demoDecrypt demoClientState demoKey rfl rfl
  exact ⟨msgs, h1, h2⟩

/-! ## C2 -/

/-- C2: whenever `storage.initialize()` or `crypto.initialize()` fails
(including a crypto failure after storage already succeeded),
`LumoxClient.initialize` fails with an `INITIALIZATION_FAILED` error wrapping
the underlying failure as its cause, the state is untouched (in particular
the initialized flag stays `false` when it started `false`), and a
subsequent `sendMessage` still fails with the not-initialized error. -/
theorem clientInit_failure_wraps_cause_and_stays_uninitialized
    (st : ClientState) (storageInit cryptoInit : Except Err Unit)
    (hst : st.initialized = false)
    (hfail : ¬(storageInit = .ok () ∧ cryptoInit = .ok ())) :
    (clientInit st storageInit cryptoInit).1 = st ∧
    (clientInit st storageInit cryptoInit).1.initialized = false ∧
    (∃ e0, (storageInit = .error e0 ∨ (storageInit = .ok () ∧ cryptoInit = .error e0)) ∧
      (clientInit st storageInit cryptoInit).2 =
        .error (lumoxError .INITIALIZATION_FAILED "Failed to initialize Lumox client" (some e0)) ∧
      (lumoxError .INITIALIZATION_FAILED "Failed to initialize Lumox client"
        (some e0)).code? = some .INITIALIZATION_FAILED ∧
      (lumoxError .INITIALIZATION_FAILED "Failed to initialize Lumox client"
        (some e0)).cause? = some e0) ∧
    (∀ encrypt save senderId receiverId content metadata timestamp randSuffix,
      clientSendMessage encrypt save (clientInit st storageInit cryptoInit).1
        senderId receiverId content metadata timestamp randSuffix =
        .error (notInitializedError "LumoxClient")) := by
  cases storageInit with
  | error e =>
    refine ⟨rfl, hst, ⟨e, Or.inl rfl, rfl, rfl, rfl⟩, ?_⟩
    intro encrypt save senderId receiverId content metadata timestamp randSuffix
    simp [clientInit, clientSendMessage, clientEnsureInitialized, hst]
  | ok u =>
    cases u
    cases cryptoInit with
    | error e =>
      refine ⟨rfl, hst, ⟨e, Or.inr ⟨rfl, rfl⟩, rfl, rfl, rfl⟩, ?_⟩
      intro encrypt save senderId receiverId content metadata timestamp randSuffix
      simp [clientInit, clientSendMessage, clientEnsureInitialized, hst]
    | ok u' =>
      cases u'
      exact absurd ⟨rfl, rfl⟩ hfail

/-- Witness for C2: a concrete storage failure on a fresh client. -/
theorem clientInit_failure_witness :
    ({ encryptionKey := none, initialized := false } : ClientState).initialized = false ∧
    (clientInit { encryptionKey := none, initialized := false }
      (.error (.foreign "disk failure")) (.ok ())).1.initialized = false ∧
    (∃ e0, (clientInit { encryptionKey := none, initialized := false }
        (.error (.foreign "disk failure")) (.ok ())).2 =
      .error (lumoxError .INITIALIZATION_FAILED "Failed to initialize Lumox client" (some e0))) := by
  obtain ⟨-, h2, ⟨e0, -, h3, -, -⟩, -⟩ :=
    clientInit_failure_wraps_cause_and_stays_uninitialized
      { encryptionKey := none, initialized := false }
      (.error (.foreign "disk failure")) (.ok ()) rfl (fun h => nomatch h.1)
  exact ⟨rfl, h2, ⟨e0, h3⟩⟩

/-! ## C3 -/

/-- C3: `sendMessage` on a non-initialized client fails with the
not-initialized error (code `NOT_INITIALIZED` = `LUMOX-2002`); on an
initialized client with no encryption key set it fails with the key-not-set
error (code `CRYPTO_KEY_NOT_SET` = `LUMOX-5007`); the two codes are
distinct. -/
theorem sendMessage_not_initialized_vs_key_not_set
    (encrypt : String → CryptoKey → Except Err String)
    (save : EncryptedMessage → Except Err String)
    (st : ClientState) (senderId receiverId content : String)
    (metadata : Option Meta) (timestamp : Int) (randSuffix : String) :
    (st.initialized = false →
      clientSendMessage encrypt save st senderId receiverId content metadata timestamp randSuffix
        = .error (notInitializedError "LumoxClient") ∧
      (notInitializedError "LumoxClient").code? = some .NOT_INITIALIZED ∧
      ErrorCode.NOT_INITIALIZED.codeStr = "LUMOX-2002") ∧
    (st.initialized = true → st.encryptionKey = none →
      clientSendMessage encrypt save st senderId receiverId content metadata timestamp randSuffix
        = .error keyNotSetError ∧
      keyNotSetError.code? = some .CRYPTO_KEY_NOT_SET ∧
      ErrorCode.CRYPTO_KEY_NOT_SET.codeStr = "LUMOX-5007") ∧
    ErrorCode.NOT_INITIALIZED.codeStr ≠ ErrorCode.CRYPTO_KEY_NOT_SET.codeStr := by
  refine ⟨?_, ?_, by decide⟩
  · intro hninit
    exact ⟨by simp [clientSendMessage, clientEnsureInitialized, hninit], rfl, rfl⟩
  · intro hinit hnokey
    exact ⟨by simp [clientSendMessage, clientEnsureInitialized, hinit, hnokey], rfl, rfl⟩

/-- Witness for C3 at two concrete client states (fresh, and initialized
without a key). -/
theorem sendMessage_precondition_witness :
    (clientSendMessage (fun _ _ => .ok "ct") (fun _ => .ok "id")
        { encryptionKey := none, initialized := false } "alice" "bob" "hi" none 5 "r"
      = .error (notInitializedError "LumoxClient")) ∧
    (clientSendMessage (fun _ _ => .ok "ct") (fun _ => .ok "id")
        { encryptionKey := none, initialized := true } "alice" "bob" "hi" none 5 "r"
      = .error keyNotSetError) ∧
    ErrorCode.NOT_INITIALIZED.codeStr ≠ ErrorCode.CRYPTO_KEY_NOT_SET.codeStr := by
  obtain ⟨h1, -, h3⟩ :=
    sendMessage_not_initialized_vs_key_not_set (fun _ _ => .ok "ct") (fun _ => .ok "id")
      { encryptionKey := none, initialized := false } "alice" "bob" "hi" none 5 "r"
  obtain ⟨-, h2, -⟩ :=
    sendMessage_not_initialized_vs_key_not_set (fun _ _ => .ok "ct") (fun _ => .ok "id")
      { encryptionKey := none, initialized := true } "alice" "bob" "hi" none 5 "r"
  exact ⟨(h1 rfl).1, (h2 rfl rfl).1, h3⟩

/-! ## C4 -/

/-- C4: on an initialized provider, whenever the external platform
primitives behave correctly on this call's data — AES-GCM decryption under
the same key inverts encryption, base64 `atob` inverts `btoa`, UTF-8
decoding inverts encoding, the ciphertext is non-empty (AES-GCM always
appends a 16-byte tag) and the base64 token is not whitespace-only — the
token produced by `encrypt(s, k)` (the base64 encoding of the 12-byte nonce
followed by the ciphertext of the UTF-8 encoding of `s`) decrypts with the
same key back to exactly `s`. -/
theorem encrypt_decrypt_roundtrip
    (p : SubtlePlatform) (s : String) (key : CryptoKey) (iv ct : List Nat)
    (hiv : iv.length = 12)
    (henc : p.aeadEncrypt key iv (p.textEncode s) = some ct)
    (hct : ct ≠ [])
    (hb64 : p.atob (p.btoa (iv ++ ct)) = some (iv ++ ct))
    (htrim : trimEmpty (p.btoa (iv ++ ct)) = false)
    (hdec : p.aeadDecrypt key iv ct = some (p.textEncode s))
    (htext : p.textDecode (p.textEncode s) = s) :
    webCryptoEncrypt p true s key iv = .ok (p.btoa (iv ++ ct)) ∧
    webCryptoDecrypt p true (p.btoa (iv ++ ct)) key = .ok s := by
  have henc' : webCryptoEncrypt p true s key iv = .ok (p.btoa (iv ++ ct)) := by
    simp [webCryptoEncrypt, webCryptoEnsureInitialized, henc]
  refine ⟨henc', ?_⟩
  have hpos : 0 < ct.length := List.length_pos.mpr hct
  have htake : (iv ++ ct).take 12 = iv := by
    rw [← hiv]
    exact List.take_left iv ct
  have hdrop : (iv ++ ct).drop 12 = ct := by
    rw [← hiv]
    exact List.drop_left iv ct
  have hlen : ((iv ++ ct).length ≤ 12) = False := by
    apply eq_false
    rw [List.length_append, hiv]
    omega
  simp [webCryptoDecrypt, webCryptoEnsureInitialized, htrim, hb64, hlen, htake, hdrop,
    hdec, htext]
  omega

/-- A toy instantiation of the platform primitives for crypto witnesses:
code points as "UTF-8", byte-value characters as "base64", appending a tag
byte as "AES-GCM". -/
def demoPlatform : SubtlePlatform where
  textEncode := fun s => s.data.map Char.toNat
  textDecode := fun l => String.mk (l.map Char.ofNat)
  btoa := fun l => String.mk (l.map Char.ofNat)
  atob := fun s => if s = "%%" then none else some (s.data.map Char.toNat)
  aeadEncrypt := fun _ _ m => some (m ++ [77])
  aeadDecrypt := fun _ _ c => if c = [] then none else some c.dropLast
  importRaw := fun l => some ⟨l⟩

/-- Witness for C4: round trip of the plaintext `"hi"` under a concrete key
and nonce on the toy platform. -/
theorem encrypt_decrypt_roundtrip_witness :
    webCryptoEncrypt demoPlatform true "hi" ⟨[9]⟩ (List.replicate 12 65) =
      .ok (demoPlatform.btoa (List.replicate 12 65 ++ [104, 105, 77])) ∧
    webCryptoDecrypt demoPlatform true
      (demoPlatform.btoa (List.replicate 12 65 ++ [104, 105, 77])) ⟨[9]⟩ = .ok "hi" :=
  encrypt_decrypt_roundtrip demoPlatform "hi" ⟨[9]⟩ (List.replicate 12 65) [104, 105, 77]
    (by decide) (by decide) (by decide) (by decide) (by decide) (by decide) (by decide)

/-! ## C7 -/

/-- C7: `WebCryptoProvider.importKey` fails with the `CRYPTO_KEY_IMPORT_FAILED`
code whenever the input is empty or whitespace-only, is not well-formed
base64 (`atob` throws), or decodes to a byte length other than exactly 32;
and a key is only ever produced from well-formed base64 decoding to exactly
32 bytes. -/
theorem importKey_validation (p : SubtlePlatform) (keyData : String) :
    (trimEmpty keyData = true →
      ∃ e, webCryptoImportKey p true keyData = .error e ∧
        e.code? = some .CRYPTO_KEY_IMPORT_FAILED) ∧
    (p.atob keyData = none →
      ∃ e, webCryptoImportKey p true keyData = .error e ∧
        e.code? = some .CRYPTO_KEY_IMPORT_FAILED) ∧
    (∀ l, p.atob keyData = some l → l.length ≠ 32 →
      ∃ e, webCryptoImportKey p true keyData = .error e ∧
        e.code? = some .CRYPTO_KEY_IMPORT_FAILED) ∧
    (∀ k, webCryptoImportKey p true keyData = .ok k →
      ∃ l, p.atob keyData = some l ∧ l.length = 32) := by
  refine ⟨?_, ?_, ?_, ?_⟩
  · intro htrim
    exact ⟨cryptoError .CRYPTO_KEY_IMPORT_FAILED
      "Failed to import key: Key data must be a non-empty string" none,
      by simp [webCryptoImportKey, webCryptoEnsureInitialized, htrim], rfl⟩
  · intro hatob
    by_cases htrim : trimEmpty keyData = true
    · exact ⟨cryptoError .CRYPTO_KEY_IMPORT_FAILED
        "Failed to import key: Key data must be a non-empty string" none,
        by simp [webCryptoImportKey, webCryptoEnsureInitialized, htrim], rfl⟩
    · exact ⟨cryptoError .CRYPTO_KEY_IMPORT_FAILED
        "Failed to import key: Invalid base64 format" none,
        by simp [webCryptoImportKey, webCryptoEnsureInitialized, htrim, hatob], rfl⟩
  · intro l hatob hlen
    by_cases htrim : trimEmpty keyData = true
    · exact ⟨cryptoError .CRYPTO_KEY_IMPORT_FAILED
        "Failed to import key: Key data must be a non-empty string" none,
        by simp [webCryptoImportKey, webCryptoEnsureInitialized, htrim], rfl⟩
    · exact ⟨cryptoError .CRYPTO_KEY_IMPORT_FAILED
        ("Failed to import key: Invalid key length: expected 32 bytes for AES-256, got "
          ++ toString l.length ++ " bytes") none,
        by simp [webCryptoImportKey, webCryptoEnsureInitialized, htrim, hatob, hlen], rfl⟩
  · intro k hok
    by_cases htrim : trimEmpty keyData = true
    · simp [webCryptoImportKey, webCryptoEnsureInitialized, htrim] at hok
    · cases hatob : p.atob keyData with
      | none => simp [webCryptoImportKey, webCryptoEnsureInitialized, htrim, hatob] at hok
      | some l =>
        by_cases hlen : l.length = 32
        · exact ⟨l, rfl, hlen⟩
        · simp [webCryptoImportKey, webCryptoEnsureInitialized, htrim, hatob, hlen] at hok

/-- A well-formed 32-byte key string on the toy platform (32 characters of
code point 1). -/
def demoKey32 : String := String.mk (List.replicate 32 (Char.ofNat 1))

/-- A 31-byte key string on the toy platform. -/
def demoKey31 : String := String.mk (List.replicate 31 (Char.ofNat 1))

/-- Witness for C7: whitespace-only input, malformed base64, a 31-byte
decode, and a well-formed 32-byte import on the toy platform. -/
theorem importKey_validation_witness :
    (∃ e, webCryptoImportKey demoPlatform true "  " = .error e ∧
      e.code? = some .CRYPTO_KEY_IMPORT_FAILED) ∧
    (∃ e, webCryptoImportKey demoPlatform true "%%" = .error e ∧
      e.code? = some .CRYPTO_KEY_IMPORT_FAILED) ∧
    (∃ e, webCryptoImportKey demoPlatform true demoKey31 = .error e ∧
      e.code? = some .CRYPTO_KEY_IMPORT_FAILED) ∧
    (∀ k, webCryptoImportKey demoPlatform true demoKey32 = .ok k →
      ∃ l, demoPlatform.atob demoKey32 = some l ∧ l.length = 32) := by
  obtain ⟨h1, -, -, -⟩ := importKey_validation demoPlatform "  "
  obtain ⟨-, h2, -, -⟩ := importKey_validation demoPlatform "%%"
  obtain ⟨-, -, h3, -⟩ := importKey_validation demoPlatform demoKey31
  obtain ⟨-, -, -, h4⟩ := importKey_validation demoPlatform demoKey32
  exact ⟨h1 (by decide), h2 (by decide),
    h3 (List.replicate 31 1) (by decide) (by decide), h4⟩

/-! ## C5 -/

/-- The provider state right after `close()`: no open database, initialized
flag cleared, but `this.SQL` (the loaded engine) still set. -/
def afterCloseState : SqliteState :=
  { db := none, sqlLoaded := true, initialized := false }

/-- The provider state before `initialize()` was ever called. -/
def beforeInitState : SqliteState :=
  { db := none, sqlLoaded := false, initialized := false }

/-- An SQL.js engine behaviour for which blob import succeeds. -/
def demoEngine : SqlEngine :=
  { blobToDb := fun _ => some [], readVersion := fun _ => some 1 }

/-- C5 counterexample: `import` invoked after `close()` (with
`overwrite=true`) does not fail with a not-initialized error — it succeeds
and mutates the store (rebuilding the database and re-setting the
initialized flag), so not every operation invoked after `close()` fails. -/
theorem sqliteImport_after_close_succeeds :
    afterCloseState.initialized = false ∧ afterCloseState.db = none ∧
    (sqliteImport demoEngine afterCloseState [1] true).2 = .ok () ∧
    (sqliteImport demoEngine afterCloseState [1] true).1.initialized = true ∧
    (sqliteImport demoEngine afterCloseState [1] true).1.db = some [] :=
  ⟨rfl, rfl, rfl, rfl, rfl⟩

/-- C5 (amended): every `SqliteStorageProvider` operation except `import` —
`saveMessage`, `getMessage`, `getMessagesBetweenUsers`, `deleteMessage`,
`saveMessages`, `export` — invoked before `initialize()` has completed or
after `close()` fails with a not-initialized error naming
"SqliteStorageProvider" and leaves the store unchanged; `import` performs no
such check: invoked before `initialize()` (SQL.js not yet loaded) it fails
with the storage-import error code instead (never with the not-initialized
error), leaving the store unchanged. -/
theorem sqlite_ops_before_init_or_after_close
    (st : SqliteState) (h : st.initialized = false ∨ st.db = none) :
    (∀ j msg, sqliteSaveMessage j st msg =
      (st, .error (notInitializedError "SqliteStorageProvider"))) ∧
    (∀ j id, sqliteGetMessage j st id =
      (st, .error (notInitializedError "SqliteStorageProvider"))) ∧
    (∀ j u1 u2 limit offset, sqliteGetMessagesBetweenUsers j st u1 u2 limit offset =
      (st, .error (notInitializedError "SqliteStorageProvider"))) ∧
    (∀ id, sqliteDeleteMessage st id =
      (st, .error (notInitializedError "SqliteStorageProvider"))) ∧
    (∀ j msgs, sqliteSaveMessages j st msgs =
      (st, .error (notInitializedError "SqliteStorageProvider"))) ∧
    (∀ f, sqliteExport f st =
      (st, .error (notInitializedError "SqliteStorageProvider"))) ∧
    (st.sqlLoaded = false → ∀ eng data overwrite,
      ∃ e, sqliteImport eng st data overwrite = (st, .error e) ∧
        e.code? = some .STORAGE_IMPORT_ERROR ∧ e.name ≠ "NotInitializedError") := by
  have hens : sqliteEnsureInitialized st =
      .error (notInitializedError "SqliteStorageProvider") := by
    rcases h with h | h <;> simp [sqliteEnsureInitialized, h]
  refine ⟨?_, ?_, ?_, ?_, ?_, ?_, ?_⟩
  · intro j msg
    simp [sqliteSaveMessage, hens]
  · intro j id
    simp [sqliteGetMessage, hens]
  · intro j u1 u2 limit offset
    simp [sqliteGetMessagesBetweenUsers, hens]
  · intro id
    simp [sqliteDeleteMessage, hens]
  · intro j msgs
    simp [sqliteSaveMessages, hens]
  · intro f
    simp [sqliteExport, hens]
  · intro hsql eng data overwrite
    exact ⟨storageError .STORAGE_IMPORT_ERROR
      "Failed to import database: SQL.js is not initialized. Call initialize() first." none,
      by simp [sqliteImport, hsql], rfl, by simp [storageError, Err.name]⟩

/-- Witness for C5 (amended) at a provider that was never initialized. -/
theorem sqlite_ops_before_init_witness :
    sqliteDeleteMessage beforeInitState "x" =
      (beforeInitState, .error (notInitializedError "SqliteStorageProvider")) ∧
    (∃ e, sqliteImport demoEngine beforeInitState [1] true = (beforeInitState, .error e) ∧
      e.code? = some .STORAGE_IMPORT_ERROR ∧ e.name ≠ "NotInitializedError") := by
  obtain ⟨-, -, -, hdel, -, -, himp⟩ :=
    sqlite_ops_before_init_or_after_close beforeInitState (Or.inl rfl)
  exact ⟨hdel "x", himp rfl demoEngine [1] true⟩

/-! ## C6 -/

/-- C6: for every input blob, `SqliteStorageProvider.import` with
`overwrite=false` fails with the `STORAGE_IMPORT_ERROR` code and leaves the
store unchanged (it never merges, never overwrites, never silently
succeeds); consequently `LumoxClient.importData` on an initialized client
with `overwrite=false` also fails with the `STORAGE_IMPORT_ERROR` code. -/
theorem import_overwrite_false_always_fails
    (eng : SqlEngine) (sst : SqliteState) (data : List Nat) (cst : ClientState)
    (hc : cst.initialized = true) :
    (∃ e, sqliteImport eng sst data false = (sst, .error e) ∧
      e.code? = some .STORAGE_IMPORT_ERROR) ∧
    (∃ e, clientImportData (fun d ow => (sqliteImport eng sst d ow).2) cst data false
        = .error e ∧ e.code? = some .STORAGE_IMPORT_ERROR) := by
  have hstorage : ∃ e, sqliteImport eng sst data false = (sst, .error e) ∧
      e.code? = some .STORAGE_IMPORT_ERROR := by
    cases hsql : sst.sqlLoaded with
    | false =>
      exact ⟨storageError .STORAGE_IMPORT_ERROR
        "Failed to import database: SQL.js is not initialized. Call initialize() first." none,
        by simp [sqliteImport, hsql], rfl⟩
    | true =>
      exact ⟨storageError .STORAGE_IMPORT_ERROR
        "Failed to import database: Merge import not implemented yet. Use overwrite=true." none,
        by simp [sqliteImport, hsql], rfl⟩
  obtain ⟨e, he, hcode⟩ := hstorage
  refine ⟨⟨e, he, hcode⟩, ?_⟩
  refine ⟨lumoxError .STORAGE_IMPORT_ERROR ("Failed to import data: " ++ e.message) (some e),
    ?_, rfl⟩
  simp [clientImportData, clientEnsureInitialized, hc, he]

/-- Witness for C6: a concrete overwrite=false import on an open store. -/
theorem import_overwrite_false_witness :
    (∃ e, sqliteImport demoEngine
        { db := some [], sqlLoaded := true, initialized := true } [7] false =
      ({ db := some [], sqlLoaded := true, initialized := true }, .error e) ∧
      e.code? = some .STORAGE_IMPORT_ERROR) ∧
    (∃ e, clientImportData
        (fun d ow => (sqliteImport demoEngine
          { db := some [], sqlLoaded := true, initialized := true } d ow).2)
        demoClientState [7] false = .error e ∧
      e.code? = some .STORAGE_IMPORT_ERROR) :=
  import_overwrite_false_always_fails demoEngine
    { db := some [], sqlLoaded := true, initialized := true } [7] demoClientState rfl

/-! ## C8 -/

/-- An initialized provider whose store is empty. -/
def emptyInitState : SqliteState :=
  { db := some [], sqlLoaded := true, initialized := true }

/-- C8: the claim that `deleteMessage(id)` returns `true` iff a row with
that id existed fails on the code — `deleteMessage` runs the `DELETE` and
returns `true` unconditionally, never consulting the modified-row count: on
an initialized empty store, deleting an id that is not present still
returns `true` (the claim requires `false`). -/
theorem deleteMessage_true_for_missing_id :
    (emptyInitState.db.getD []).find? (fun r => r.id == "missing-id") = none ∧
    (sqliteDeleteMessage emptyInitState "missing-id").2 = .ok true :=
  ⟨rfl, rfl⟩

/-! ## C9 -/

/-- C9: a message saved with `saveMessage` under a fresh id and read back
with `getMessage` on the same id round-trips exactly: absent metadata reads
back as absence (`undefined`, not an empty map), and present metadata reads
back equal to what was saved, provided the JSON codec round-trips the
metadata object (which `JSON.parse ∘ JSON.stringify` does for these values). -/
theorem saveMessage_getMessage_metadata_roundtrip
    (j : JsonCodec) (st : SqliteState) (rows : List DbRow) (msg : EncryptedMessage)
    (hinit : st.initialized = true) (hdb : st.db = some rows)
    (hfresh : ∀ r ∈ rows, r.id ≠ msg.id)
    (hid : msg.id ≠ "")
    (hjson : ∀ m, msg.metadata = some m →
      j.parse (j.stringify m) = some m ∧ j.stringify m ≠ "") :
    (sqliteSaveMessage j st msg).2 = .ok msg.id ∧
    (sqliteGetMessage j (sqliteSaveMessage j st msg).1 msg.id).2 = .ok (some msg) := by
  have hens : sqliteEnsureInitialized st = .ok () := by
    simp [sqliteEnsureInitialized, hinit, hdb]
  have hany : rows.any (fun r => r.id == msg.id) = false := by
    rw [List.any_eq_false]
    intro r hr
    simp [hfresh r hr]
  have hnone : rows.find? (fun r => r.id == msg.id) = none := by
    rw [List.find?_eq_none]
    intro r hr
    simp [hfresh r hr]
  have hsave : sqliteSaveMessage j st msg =
      ({ st with db := some (rows ++ [toRow j msg]) }, .ok msg.id) := by
    simp [sqliteSaveMessage, hens, hdb, hany]
  have hens' : sqliteEnsureInitialized { st with db := some (rows ++ [toRow j msg]) }
      = .ok () := by
    simp [sqliteEnsureInitialized, hinit]
  have hfind : (rows ++ [toRow j msg]).find? (fun r => r.id == msg.id)
      = some (toRow j msg) := by
    rw [List.find?_append, hnone]
    simp [toRow]
  refine ⟨by rw [hsave], ?_⟩
  rw [hsave]
  obtain ⟨mid, msid, mrid, mec, mts, mmd⟩ := msg
  cases mmd with
  | none =>
    simp only [sqliteGetMessage, hens', Option.getD_some, hfind]
    simp [toRow, rowToMessage, hid]
  | some m =>
    obtain ⟨hparse, hne⟩ := hjson m rfl
    simp only [sqliteGetMessage, hens', Option.getD_some, hfind]
    simp [toRow, rowToMessage, hid, hne, hparse]

/-- A toy JSON codec that round-trips the demonstration metadata object. -/
def demoCodec : JsonCodec :=
  { stringify := fun _ => "json-k-v",
    parse := fun s => if s = "json-k-v" then some [("k", .str "v")] else none }

/-- Witness for C9: round trip of a message without metadata and of one with
metadata through a concrete empty store. -/
theorem saveMessage_getMessage_roundtrip_witness :
    ((sqliteGetMessage demoCodec (sqliteSaveMessage demoCodec emptyInitState
      { id := "a", senderId := "s", receiverId := "r", encryptedContent := "c",
        timestamp := 1, metadata := none }).1 "a").2 = .ok (some
      { id := "a", senderId := "s", receiverId := "r", encryptedContent := "c",
        timestamp := 1, metadata := none })) ∧
    ((sqliteGetMessage demoCodec (sqliteSaveMessage demoCodec emptyInitState
      { id := "b", senderId := "s", receiverId := "r", encryptedContent := "c",
        timestamp := 2, metadata := some [("k", .str "v")] }).1 "b").2 = .ok (some
      { id := "b", senderId := "s", receiverId := "r", encryptedContent := "c",
        timestamp := 2, metadata := some [("k", .str "v")] })) := by
  obtain ⟨-, h1⟩ := saveMessage_getMessage_metadata_roundtrip demoCodec emptyInitState []
    { id := "a", senderId := "s", receiverId := "r", encryptedContent := "c",
      timestamp := 1, metadata := none }
    rfl rfl (by intro r hr; cases hr) (by decide) (by intro m hm; cases hm)
  obtain ⟨-, h2⟩ := saveMessage_getMessage_metadata_roundtrip demoCodec emptyInitState []
    { id := "b", senderId := "s", receiverId := "r", encryptedContent := "c",
      timestamp := 2, metadata := some [("k", .str "v")] }
    rfl rfl (by intro r hr; cases hr) (by decide)
    (by intro m hm; cases hm; exact ⟨by decide, by decide⟩)
  exact ⟨h1, h2⟩

/-! ## C10 -/

/-- C10: `close()` on an initialized client (with a successful storage
close) clears only the initialized flag — the resulting state is exactly the
old state with `initialized := false`, so the active encryption key is
retained; after a successful re-`initialize()`, `sendMessage` and
`getMessages` run with the previously set key and succeed without any key
being set again (no key-not-set error). -/
theorem close_retains_encryption_key
    (st : ClientState) (key : CryptoKey) (storageClose storageInit2 cryptoInit2 : Except Err Unit)
    (hinit : st.initialized = true) (hkey : st.encryptionKey = some key)
    (hclose : storageClose = .ok ()) (hs2 : storageInit2 = .ok ()) (hc2 : cryptoInit2 = .ok ()) :
    (clientClose st storageClose).2 = .ok () ∧
    (clientClose st storageClose).1 = { st with initialized := false } ∧
    (clientClose st storageClose).1.encryptionKey = some key ∧
    (clientInit (clientClose st storageClose).1 storageInit2 cryptoInit2).1.initialized = true ∧
    (clientInit (clientClose st storageClose).1 storageInit2 cryptoInit2).1.encryptionKey
      = some key ∧
    (∀ encrypt save senderId receiverId content metadata timestamp randSuffix ec mid,
      encrypt content key = .ok ec →
      save { id := senderId ++ "-" ++ receiverId ++ "-" ++ toString timestamp ++ "-" ++ randSuffix,
             senderId := senderId, receiverId := receiverId, encryptedContent := ec,
             timestamp := timestamp, metadata := metadata } = .ok mid →
      clientSendMessage encrypt save
        (clientInit (clientClose st storageClose).1 storageInit2 cryptoInit2).1
        senderId receiverId content metadata timestamp randSuffix = .ok mid) ∧
    (∀ decrypt ems,
      clientGetMessages (.ok ems) decrypt
        (clientInit (clientClose st storageClose).1 storageInit2 cryptoInit2).1
        = .ok (ems.map (decryptEnvelope decrypt key))) := by
  subst hclose hs2 hc2
  have h1 : clientClose st (.ok ()) = ({ st with initialized := false }, .ok ()) := by
    simp [clientClose, hinit]
  have h2 : clientInit { st with initialized := false } (.ok ()) (.ok ())
      = ({ st with initialized := true }, .ok ()) := by
    simp [clientInit]
  refine ⟨by rw [h1], by rw [h1], by rw [h1]; exact hkey, ?_, ?_, ?_, ?_⟩
  · rw [h1, h2]
  · rw [h1, h2]
    exact hkey
  · intro encrypt save senderId receiverId content metadata timestamp randSuffix ec mid
      henc hsaveOk
    rw [h1, h2]
    simp [clientSendMessage, clientEnsureInitialized, hkey, henc, hsaveOk]
  · intro decrypt ems
    rw [h1, h2]
    simp [clientGetMessages, clientEnsureInitialized, hkey]

/-- Witness for C10: close then re-initialize on a concrete client holding
`demoKey`; the key survives and a send succeeds without re-setting it. -/
theorem close_retains_encryption_key_witness :
    (clientClose demoClientState (.ok ())).1.encryptionKey = some demoKey ∧
    (clientInit (clientClose demoClientState (.ok ())).1 (.ok ()) (.ok ())).1.initialized
      = true ∧
    clientSendMessage (fun _ _ => .ok "ct") (fun _ => .ok "mid")
      (clientInit (clientClose demoClientState (.ok ())).1 (.ok ()) (.ok ())).1
      "alice" "bob" "hi" none 5 "r" = .ok "mid" := by
  obtain ⟨-, -, hk, hi, -, hsend, -⟩ :=
    close_retains_encryption_key demoClientState demoKey (.ok ()) (.ok ()) (.ok ())
      rfl rfl rfl rfl rfl
  exact ⟨hk, hi, hsend (fun _ _ => .ok "ct") (fun _ => .ok "mid")
    "alice" "bob" "hi" none 5 "r" "ct" "mid" rfl rfl⟩

end Lumox
